import Mathlib

/-!
# Verification of the strain monitor (`strain_monitor.py`)

Shallow embedding of the live monitoring engine of the repository:

* the binary sample-stream decoder inlined in `download_data_range`
  (lines 83-94),
* the authentication-response decoder inlined in `authenticate_key`
  (lines 40-63),
* the divergence computation `calculate_peak_difference` (lines 110-157),
* the alert logic and polling loop of `main` (lines 180-228).

Modelling conventions:

* Byte buffers are `List Nat`, each entry a byte value (`< 256` where the
  statement needs it).
* Machine integers are `Nat`/`Int` (Python integers are unbounded, and all
  decoded timestamps are unsigned, so no wrap-around is involved).
* The 4-byte IEEE-754 float of a sample is represented by its 32-bit
  big-endian bit pattern (a `Nat`); where the monitor does arithmetic on
  sample values we use `ℚ` for the real value of the float, since every
  comparison and subtraction the claims exercise is exact at the inputs
  considered.  The bit-pattern-to-value interpretation is kept abstract
  (a function parameter) where both layers meet.
* The comparison `time_diff_sec <= 1.0` (with
  `time_diff_sec = abs(Δts) / 1e9` computed in double precision) is
  modelled as the exact integer comparison `|Δts| ≤ 10^9` nanoseconds:
  division by the exactly representable `1e9` is monotone and the two
  predicates agree on every integer nanosecond difference.
* Fallible decoding is modelled with `Except`/result types; a Python
  exception that the program never catches is a distinguished error
  outcome of the embedded function.
-/

namespace StrainMonitor

/-- Big-endian interpretation of a byte list as an unsigned integer, the
semantics of `struct.unpack("!I" / "!Q" / ...)` on the given bytes. -/
def beNat (l : List Nat) : Nat := l.foldl (fun a b => 256 * a + b) 0

/-- Big-endian encoding of `n` into `k` bytes, the semantics of
`struct.pack` with a width-`k` unsigned big-endian format. -/
def toBytesBE : Nat → Nat → List Nat
  | 0, _ => []
  | k + 1, n => toBytesBE k (n / 256) ++ [n % 256]

/-- The failure of `struct.unpack_from` on a buffer with too few remaining
bytes (`struct.error`); the spec names this decoding failure
`TruncatedStream`. -/
inductive StreamError
  | truncatedStream
deriving DecidableEq

/-- A decoded sample: 8-byte big-endian timestamp (nanoseconds) and the
32-bit big-endian bit pattern of the IEEE-754 float value. -/
abbrev Sample := Nat × Nat

/-- The decoding loop of `download_data_range` (lines 87-91):
`while data: unpack "!Q" at 0; unpack "!f" at 8; data = data[12:]`.
A nonempty buffer with fewer than 12 bytes makes one of the two
`struct.unpack_from` calls fail (`"!Q"` needs 8 bytes, `"!f"` at offset 8
needs 12), which raises `struct.error`. -/
def decode_sample_stream : List Nat → Except StreamError (List Sample)
  | [] => .ok []
  | b0 :: b1 :: b2 :: b3 :: b4 :: b5 :: b6 :: b7 :: b8 :: b9 :: b10 :: b11 :: rest =>
    match decode_sample_stream rest with
    | .ok samples =>
        .ok ((beNat [b0, b1, b2, b3, b4, b5, b6, b7], beNat [b8, b9, b10, b11]) :: samples)
    | .error e => .error e
  | _ => .error .truncatedStream

/-- Re-encoding of a decoded sample list with the documented wire layout:
8-byte big-endian timestamp followed by the 4 bytes of the value, records
concatenated flat. -/
def encodeStream : List Sample → List Nat
  | [] => []
  | s :: rest => toBytesBE 8 s.1 ++ toBytesBE 4 s.2 ++ encodeStream rest

theorem beNat_append_singleton (l : List Nat) (b : Nat) :
    beNat (l ++ [b]) = 256 * beNat l + b := by
  simp [beNat, List.foldl_append]

theorem toBytesBE_beNat (l : List Nat) (h : ∀ b ∈ l, b < 256) :
    toBytesBE l.length (beNat l) = l := by
  induction l using List.reverseRecOn with
  | nil => rfl
  | append_singleton l b ih =>
    have hb : b < 256 := h b (by simp)
    have hl : ∀ x ∈ l, x < 256 := fun x hx => h x (by simp [hx])
    rw [beNat_append_singleton]
    simp only [List.length_append, List.length_singleton]
    show toBytesBE l.length ((256 * beNat l + b) / 256) ++ [(256 * beNat l + b) % 256] = l ++ [b]
    have h1 : (256 * beNat l + b) / 256 = beNat l := by omega
    have h2 : (256 * beNat l + b) % 256 = b := by omega
    rw [h1, h2, ih hl]

theorem exists_twelve_cons (data : List Nat) (h : 12 ≤ data.length) :
    ∃ b0 b1 b2 b3 b4 b5 b6 b7 b8 b9 b10 b11 rest,
      data = b0 :: b1 :: b2 :: b3 :: b4 :: b5 :: b6 :: b7 :: b8 :: b9 :: b10 :: b11 :: rest := by
  match data, h with
  | b0 :: b1 :: b2 :: b3 :: b4 :: b5 :: b6 :: b7 :: b8 :: b9 :: b10 :: b11 :: rest, _ =>
    exact ⟨b0, b1, b2, b3, b4, b5, b6, b7, b8, b9, b10, b11, rest, rfl⟩

theorem decode_spec_aux :
    ∀ (n : Nat) (data : List Nat), data.length = 12 * n → (∀ b ∈ data, b < 256) →
      ∃ samples, decode_sample_stream data = .ok samples ∧
        samples.length = data.length / 12 ∧
        (∀ k, k < samples.length →
          samples.getD k (0, 0) =
            (beNat ((data.drop (12 * k)).take 8), beNat ((data.drop (12 * k + 8)).take 4))) ∧
        encodeStream samples = data := by
  intro n
  induction n with
  | zero =>
    intro data hlen _
    have : data = [] := List.eq_nil_of_length_eq_zero (by omega)
    subst this
    exact ⟨[], rfl, rfl, by intro k hk; simp at hk, rfl⟩
  | succ n ih =>
    intro data hlen hbytes
    obtain ⟨b0, b1, b2, b3, b4, b5, b6, b7, b8, b9, b10, b11, rest, rfl⟩ :=
      exists_twelve_cons data (by omega)
    have hrl : rest.length = 12 * n := by simp at hlen; omega
    have hrb : ∀ b ∈ rest, b < 256 := fun b hb => hbytes b (by simp [hb])
    obtain ⟨samples, hdec, hslen, hkth, henc⟩ := ih rest hrl hrb
    refine ⟨(beNat [b0, b1, b2, b3, b4, b5, b6, b7], beNat [b8, b9, b10, b11]) :: samples,
      ?_, ?_, ?_, ?_⟩
    · show (match decode_sample_stream rest with
        | .ok samples =>
            Except.ok ((beNat [b0, b1, b2, b3, b4, b5, b6, b7], beNat [b8, b9, b10, b11]) :: samples)
        | .error e => Except.error e) = _
      rw [hdec]
    · simp only [List.length_cons, hslen]
      simp at hlen ⊢
      omega
    · intro k hk
      match k with
      | 0 => rfl
      | j + 1 =>
        simp only [List.length_cons] at hk
        have hj := hkth j (by omega)
        show samples.getD j (0, 0) = _
        rw [hj]
        have hd1 : List.drop (12 * (j + 1))
            (b0 :: b1 :: b2 :: b3 :: b4 :: b5 :: b6 :: b7 :: b8 :: b9 :: b10 :: b11 :: rest) =
            List.drop (12 * j) rest := by
          rw [show 12 * (j + 1) = 12 * j + 12 by ring]
          rfl
        have hd2 : List.drop (12 * (j + 1) + 8)
            (b0 :: b1 :: b2 :: b3 :: b4 :: b5 :: b6 :: b7 :: b8 :: b9 :: b10 :: b11 :: rest) =
            List.drop (12 * j + 8) rest := by
          rw [show 12 * (j + 1) + 8 = 12 * j + 8 + 12 by ring]
          rfl
        rw [hd1, hd2]
    · show toBytesBE 8 (beNat [b0, b1, b2, b3, b4, b5, b6, b7]) ++
        toBytesBE 4 (beNat [b8, b9, b10, b11]) ++ encodeStream samples = _
      have e1 : toBytesBE 8 (beNat [b0, b1, b2, b3, b4, b5, b6, b7]) =
          [b0, b1, b2, b3, b4, b5, b6, b7] := by
        have := toBytesBE_beNat [b0, b1, b2, b3, b4, b5, b6, b7]
          (by intro x hx; simp at hx; rcases hx with h|h|h|h|h|h|h|h <;>
            { subst h; exact hbytes _ (by simp) })
        simpa using this
      have e2 : toBytesBE 4 (beNat [b8, b9, b10, b11]) = [b8, b9, b10, b11] := by
        have := toBytesBE_beNat [b8, b9, b10, b11]
          (by intro x hx; simp at hx; rcases hx with h|h|h|h <;>
            { subst h; exact hbytes _ (by simp) })
        simpa using this
      rw [e1, e2, henc]
      rfl

theorem decode_truncated_aux :
    ∀ (n : Nat) (data : List Nat), data.length ≤ n → ¬ (12 ∣ data.length) →
      decode_sample_stream data = .error .truncatedStream := by
  intro n
  induction n with
  | zero =>
    intro data h1 h2
    exact absurd ⟨0, by omega⟩ h2
  | succ n ih =>
    intro data h1 h2
    rcases data with _ | ⟨b0, d⟩; · exact absurd ⟨0, rfl⟩ h2
    rcases d with _ | ⟨b1, d⟩; · rfl
    rcases d with _ | ⟨b2, d⟩; · rfl
    rcases d with _ | ⟨b3, d⟩; · rfl
    rcases d with _ | ⟨b4, d⟩; · rfl
    rcases d with _ | ⟨b5, d⟩; · rfl
    rcases d with _ | ⟨b6, d⟩; · rfl
    rcases d with _ | ⟨b7, d⟩; · rfl
    rcases d with _ | ⟨b8, d⟩; · rfl
    rcases d with _ | ⟨b9, d⟩; · rfl
    rcases d with _ | ⟨b10, d⟩; · rfl
    rcases d with _ | ⟨b11, rest⟩; · rfl
    have hr2 : ¬ (12 ∣ rest.length) := by
      intro ⟨c, hc⟩
      exact h2 ⟨c + 1, by simp; omega⟩
    have hr1 : rest.length ≤ n := by simp at h1; omega
    have := ih rest hr1 hr2
    show (match decode_sample_stream rest with
      | .ok samples =>
          Except.ok ((beNat [b0, b1, b2, b3, b4, b5, b6, b7], beNat [b8, b9, b10, b11]) :: samples)
      | .error e => Except.error e) = _
    rw [this]

/-- C6: for every byte buffer whose length is a multiple of 12, the
sample-stream decoding loop of `download_data_range` succeeds and produces
exactly `len(buffer)/12` samples; the `k`-th sample is the 8-byte
big-endian unsigned timestamp followed by the 4-byte big-endian value
(represented by its IEEE-754 bit pattern) of the `k`-th 12-byte record,
and re-encoding every sample with the same layout reproduces the original
buffer byte for byte. -/
theorem decode_sample_stream_complete (data : List Nat) (hlen : 12 ∣ data.length)
    (hbytes : ∀ b ∈ data, b < 256) :
    ∃ samples, decode_sample_stream data = .ok samples ∧
      samples.length = data.length / 12 ∧
      (∀ k, k < samples.length →
        samples.getD k (0, 0) =
          (beNat ((data.drop (12 * k)).take 8), beNat ((data.drop (12 * k + 8)).take 4))) ∧
      encodeStream samples = data := by
  obtain ⟨n, hn⟩ := hlen
  exact decode_spec_aux n data hn hbytes

/-- Witness for C6 at a concrete two-record buffer. -/
theorem decode_sample_stream_complete_witness :
    ∃ samples,
      decode_sample_stream
          [0, 0, 0, 0, 0, 0, 0, 1, 63, 128, 0, 0,
           0, 0, 0, 0, 0, 0, 0, 2, 192, 64, 0, 0] = .ok samples ∧
      samples.length =
        ([0, 0, 0, 0, 0, 0, 0, 1, 63, 128, 0, 0,
          0, 0, 0, 0, 0, 0, 0, 2, 192, 64, 0, 0] : List Nat).length / 12 ∧
      (∀ k, k < samples.length →
        samples.getD k (0, 0) =
          (beNat ((List.drop (12 * k)
              [0, 0, 0, 0, 0, 0, 0, 1, 63, 128, 0, 0,
               0, 0, 0, 0, 0, 0, 0, 2, 192, 64, 0, 0]).take 8),
           beNat ((List.drop (12 * k + 8)
              [0, 0, 0, 0, 0, 0, 0, 1, 63, 128, 0, 0,
               0, 0, 0, 0, 0, 0, 0, 2, 192, 64, 0, 0]).take 4))) ∧
      encodeStream samples =
        [0, 0, 0, 0, 0, 0, 0, 1, 63, 128, 0, 0,
         0, 0, 0, 0, 0, 0, 0, 2, 192, 64, 0, 0] :=
  decode_sample_stream_complete _ (by decide) (by decide)

/-- C7: on every byte buffer whose length is not a multiple of 12 the
sample-stream decoding loop of `download_data_range` fails with the
truncated-stream error (the `struct.error` of the `unpack_from` that runs
out of bytes), never succeeding and never failing any other way. -/
theorem decode_sample_stream_truncated (data : List Nat) (h : ¬ (12 ∣ data.length)) :
    decode_sample_stream data = .error .truncatedStream :=
  decode_truncated_aux data.length data le_rfl h

/-- Witness for C7 at a concrete 5-byte buffer. -/
theorem decode_sample_stream_truncated_witness :
    decode_sample_stream [0, 0, 0, 0, 0] = .error .truncatedStream :=
  decode_sample_stream_truncated [0, 0, 0, 0, 0] (by decide)

/-! ## Authentication-response decoder (`authenticate_key`, lines 40-63)

The text fields are modelled as raw byte lists with Python's
`.strip('\x00')` applied; the UTF-8 decoding step is the identity on the
byte level for the buffers considered here. -/

/-- Python slice `l[a:b]` (for `a ≤ b`), clamped at the end of the list. -/
def pySlice (l : List Nat) (a b : Nat) : List Nat := (l.drop a).take (b - a)

/-- Python `.strip('\x00')`: remove NUL bytes from both ends. -/
def stripNul (l : List Nat) : List Nat :=
  ((l.dropWhile (· == 0)).reverse.dropWhile (· == 0)).reverse

/-- Outcome of the response-decoding half of `authenticate_key` (run when
the HTTP status is OK). `invalid` is the `return None, None` for a short
buffer; `nameError` is the uncaught `NameError` raised at line 59 when the
scan loop body never ran and `server_length` was never assigned; `ok`
carries the returned `(server, auth_token)` pair. -/
inductive AuthDecodeResult
  | invalid
  | nameError
  | ok (server token : List Nat)
deriving DecidableEq

/-- The scan loop of lines 52-56:
`while server_offset < len(data) - 4`, candidate `!I` at the offset,
break on a value in `[1, 100]`, else advance one byte.  The structural
fuel `r` equals `len(data) - 4 - server_offset`, the exact number of
remaining loop iterations, so the recursion mirrors the loop exactly.
`last` holds the current value of the `server_length` variable (`none`
while it is still unassigned); on loop exit without a break the stale
last candidate is kept, as in the source. -/
def scanGo (data : List Nat) : Nat → Nat → Option Nat → Option (Nat × Nat)
  | o, 0, last =>
    match last with
    | none => none
    | some c => some (o, c)
  | o, r + 1, _ =>
    let c := beNat (pySlice data o (o + 4))
    if 1 ≤ c ∧ c ≤ 100 then some (o, c) else scanGo data (o + 1) r (some c)

/-- Entry into the scan loop from `server_offset = 4 + auth_token_length`;
returns the final `(server_offset, server_length)` pair, or `none` when
`server_length` was never assigned. -/
def scanServer (data : List Nat) (o : Nat) : Option (Nat × Nat) :=
  scanGo data o (data.length - 4 - o) none

/-- Lines 40-61 of `authenticate_key`, given an OK status and the response
body: short-buffer check, token-length field, token extraction, scan for
the server-length field, server extraction (with the stale length when
the scan found no plausible candidate). -/
def decode_auth_response (data : List Nat) : AuthDecodeResult :=
  if data.length < 8 then .invalid
  else
    let authTokenLength := beNat (pySlice data 0 4)
    let authToken := stripNul (pySlice data 4 (4 + authTokenLength))
    match scanServer data (4 + authTokenLength) with
    | none => .nameError
    | some (o, serverLength) =>
        .ok (stripNul (pySlice data (o + 4) (o + 4 + serverLength))) authToken

/-- C8: a buffer shorter than 8 bytes does make the decoder fail cleanly
(`return None, None`), but the other half of the claim fails: when the
forward scan finds no plausible length before the buffer ends the decoder
does not return an error value at all — with an empty scan region it
raises the unbound-variable `NameError` at line 59, and with a nonempty
scan region it returns a success pair built from the stale implausible
length. -/
theorem decode_auth_response_malformed_cases :
    decode_auth_response [1, 2, 3] = .invalid ∧
    (([0, 0, 0, 100, 1, 2, 3, 4, 5] : List Nat).length ≥ 8 ∧
      decode_auth_response [0, 0, 0, 100, 1, 2, 3, 4, 5] = .nameError) ∧
    (([0, 0, 0, 0, 0, 0, 0, 0, 0, 0, 0, 0] : List Nat).length ≥ 8 ∧
      decode_auth_response [0, 0, 0, 0, 0, 0, 0, 0, 0, 0, 0, 0] = .ok [] []) := by
  refine ⟨rfl, ⟨by decide, rfl⟩, ⟨by decide, rfl⟩⟩

/-- C10: there is an authentication-response buffer of length at least 8
(decoded under a success status) on which `authenticate_key` raises an
uncaught exception instead of returning an error value: the token-length
field `200` makes the scan region empty, the loop body never assigns
`server_length`, and line 59 raises `NameError`. -/
theorem decode_auth_response_name_error :
    (([0, 0, 0, 200, 0, 0, 0, 0] : List Nat).length ≥ 8 ∧
      decode_auth_response [0, 0, 0, 200, 0, 0, 0, 0] = .nameError) := by
  exact ⟨by decide, rfl⟩

/-! ## Divergence computation (`calculate_peak_difference`, lines 110-157)

Sample values carry their real (float) value as a `ℚ`; timestamps are
nanosecond `Nat`s.  The tolerance test `abs(Δts)/1e9 <= 1.0` is the exact
integer test `|Δts| ≤ 10^9` (see the header). -/

/-- Python `abs(a - b)` on integers. -/
def absDiff (a b : Nat) : Nat := ((a : ℤ) - (b : ℤ)).natAbs

/-- One insertion step of an insertion sort; `pySorted` below models
Python's `sorted` on a duplicate-free key list (ascending order). -/
def insort (x : Nat) : List Nat → List Nat
  | [] => [x]
  | y :: l => if x ≤ y then x :: y :: l else y :: insort x l

/-- Python `sorted` on the (already de-duplicated) dictionary keys:
the ascending enumeration of the keys. -/
def pySorted (l : List Nat) : List Nat := l.foldr insort []

/-- Lookup in the dict comprehension `{ts: val for ts, val in data}`:
when a timestamp repeats, the last pair wins.  The default `0` is never
reached on the keys the monitor looks up. -/
def dictGet (data : List (Nat × ℚ)) (ts : Nat) : ℚ :=
  ((data.reverse.find? (fun p => p.1 == ts)).map Prod.snd).getD 0

/-- The tolerance `time_diff_sec <= 1.0` in nanoseconds. -/
def TOLERANCE_NS : Nat := 1000000000

/-- The inner `while` loop of lines 140-141: starting from the current
ch3 timestamp `c` with the later ch3 timestamps in `rest`, keep stepping
forward while the next timestamp is strictly closer to `ts`; returns the
final current timestamp and the remaining suffix (the two-pointer state
carried to the next iteration of the outer loop). -/
def advance (ts : Nat) : Nat → List Nat → Nat × List Nat
  | c, [] => (c, [])
  | c, n :: rest => if absDiff n ts < absDiff c ts then advance ts n rest else (c, n :: rest)

/-- The outer `for ts in ch1_timestamps` loop of lines 138-150: advance
the two-pointer, and when the closest ch3 timestamp is within the 1-second
tolerance append `ch1_dict[ts] - ch3_dict[closest_ts]` to the matched
differences. -/
def matchGo (ch1d ch3d : List (Nat × ℚ)) : List Nat → Nat → List Nat → List ℚ
  | [], _, _ => []
  | ts :: more, c, rest3 =>
    let s := advance ts c rest3
    let tail := matchGo ch1d ch3d more s.1 s.2
    if absDiff s.1 ts ≤ TOLERANCE_NS then (dictGet ch1d ts - dictGet ch3d s.1) :: tail else tail

/-- Python `sorted(chX_dict.keys())`: the distinct timestamps of a
channel in ascending order. -/
def sortedTimestamps (data : List (Nat × ℚ)) : List Nat := pySorted (data.map Prod.fst).dedup

/-- The `matched_differences` list built by lines 134-150, with the
two-pointer initialised at `ch3_index = 0`.  (The `[]` arm for ch3 is
unreachable: `calculate_peak_difference` only runs the loop after its
empty-channel early returns.) -/
def matchedDifferences (ch1_data ch3_data : List (Nat × ℚ)) : List ℚ :=
  match sortedTimestamps ch3_data with
  | [] => []
  | c0 :: rest3 => matchGo ch1_data ch3_data (sortedTimestamps ch1_data) c0 rest3

/-- Python `max(list, default=None)`. -/
def pyMax : List ℚ → Option ℚ
  | [] => none
  | x :: rest =>
    match pyMax rest with
    | none => some x
    | some m => some (max x m)

/-- The function `calculate_peak_difference` (lines 110-157) on the two downloaded
channel sample lists: early `None` on an empty channel, then the maximum
of the matched differences (`None` again when nothing matched within
tolerance). -/
def calculate_peak_difference (ch1_data ch3_data : List (Nat × ℚ)) : Option ℚ :=
  if ch1_data = [] then none
  else if ch3_data = [] then none
  else pyMax (matchedDifferences ch1_data ch3_data)

theorem pyMax_isSome {l : List ℚ} (h : l ≠ []) : ∃ r, pyMax l = some r := by
  cases l with
  | nil => exact absurd rfl h
  | cons x rest =>
    show ∃ r, (match pyMax rest with
      | none => some x
      | some m => some (max x m)) = some r
    cases pyMax rest with
    | none => exact ⟨x, rfl⟩
    | some m => exact ⟨max x m, rfl⟩

theorem pyMax_mem : ∀ {l : List ℚ} {r : ℚ}, pyMax l = some r → r ∈ l := by
  intro l
  induction l with
  | nil => intro r h; exact Option.noConfusion h
  | cons x rest ih =>
    intro r h
    rw [show pyMax (x :: rest) = (match pyMax rest with
      | none => some x
      | some m => some (max x m)) from rfl] at h
    cases hm : pyMax rest with
    | none =>
      rw [hm] at h
      simp only [Option.some.injEq] at h
      exact h ▸ List.mem_cons_self x rest
    | some m =>
      rw [hm] at h
      simp only [Option.some.injEq] at h
      rcases max_choice x m with hc | hc
      · rw [hc] at h
        exact h ▸ List.mem_cons_self x rest
      · rw [hc] at h
        exact h ▸ List.mem_cons_of_mem x (ih hm)

theorem pyMax_le : ∀ {l : List ℚ} {r : ℚ}, pyMax l = some r → ∀ x ∈ l, x ≤ r := by
  intro l
  induction l with
  | nil => intro r _ x hx; simp at hx
  | cons y rest ih =>
    intro r h x hx
    rw [show pyMax (y :: rest) = (match pyMax rest with
      | none => some y
      | some m => some (max y m)) from rfl] at h
    cases hm : pyMax rest with
    | none =>
      rw [hm] at h
      simp only [Option.some.injEq] at h
      rcases List.mem_cons.mp hx with hc | hc
      · exact le_of_eq (hc.trans h)
      · cases rest with
        | nil => simp at hc
        | cons a b =>
          obtain ⟨r', hr'⟩ := pyMax_isSome (l := a :: b) (by simp)
          rw [hr'] at hm
          exact Option.noConfusion hm
    | some m =>
      rw [hm] at h
      simp only [Option.some.injEq] at h
      rcases List.mem_cons.mp hx with hc | hc
      · rw [hc, ← h]
        exact le_max_left _ _
      · calc x ≤ m := ih hm x hc
          _ ≤ r := by rw [← h]; exact le_max_right _ _

/-- C1: the divergence computation does not require exact timestamp
equality — it pairs a monitored sample with the nearest reference sample
up to a 1-second tolerance.  On the disjoint timestamp sets `{0}` and
`{1}` (1 ns apart) it returns the peak `5 - 3 = 2` instead of the `None`
(NoData) the claim demands. -/
theorem calculate_peak_difference_disjoint_not_noData :
    (∀ t ∈ ([((0 : ℕ), (5 : ℚ))].map Prod.fst), t ∉ ([((1 : ℕ), (3 : ℚ))].map Prod.fst)) ∧
    calculate_peak_difference [(0, 5)] [(1, 3)] = some 2 := by
  constructor
  · decide
  · norm_num [calculate_peak_difference, matchedDifferences, sortedTimestamps, pySorted, insort,
      matchGo, advance, absDiff, dictGet, pyMax, TOLERANCE_NS]

/-- C3 counterexample: the reported peak is the plain signed maximum of
the matched differences, not the difference of maximal absolute value.
With matched differences `[-5, 3]` the code reports `3` although `|-5|`
is strictly larger. -/
theorem calculate_peak_difference_not_abs_argmax :
    matchedDifferences [(0, 0), (2000000000, 3)] [(0, 5), (2000000000, 0)] = [-5, 3] ∧
    calculate_peak_difference [(0, 0), (2000000000, 3)] [(0, 5), (2000000000, 0)] = some 3 ∧
    |(3 : ℚ)| < |(-5 : ℚ)| := by
  refine ⟨?_, ?_, by norm_num⟩
  · norm_num [matchedDifferences, sortedTimestamps, pySorted, insort,
      matchGo, advance, absDiff, dictGet, TOLERANCE_NS]
  · norm_num [calculate_peak_difference, matchedDifferences, sortedTimestamps, pySorted, insort,
      matchGo, advance, absDiff, dictGet, pyMax, TOLERANCE_NS]
    exact ⟨by simp, by simp⟩

/-- C3 (amended): for every pair of nonempty channel lists whose matching
loop produced at least one difference, the reported peak is the maximum
*signed* matched difference: it is one of the matched differences and an
upper bound of all of them (Python `max`, deterministic), not the argmax
by absolute value. -/
theorem calculate_peak_difference_is_signed_max (ch1_data ch3_data : List (Nat × ℚ))
    (h1 : ch1_data ≠ []) (h3 : ch3_data ≠ [])
    (hm : matchedDifferences ch1_data ch3_data ≠ []) :
    ∃ r, calculate_peak_difference ch1_data ch3_data = some r ∧
      r ∈ matchedDifferences ch1_data ch3_data ∧
      ∀ x ∈ matchedDifferences ch1_data ch3_data, x ≤ r := by
  obtain ⟨r, hr⟩ := pyMax_isSome hm
  refine ⟨r, ?_, pyMax_mem hr, pyMax_le hr⟩
  simp [calculate_peak_difference, h1, h3, hr]

/-- Witness for the amended C3 at the counterexample input. -/
theorem calculate_peak_difference_is_signed_max_witness :
    ∃ r, calculate_peak_difference [(0, 0), (2000000000, 3)] [(0, 5), (2000000000, 0)] = some r ∧
      r ∈ matchedDifferences [(0, 0), (2000000000, 3)] [(0, 5), (2000000000, 0)] ∧
      ∀ x ∈ matchedDifferences [(0, 0), (2000000000, 3)] [(0, 5), (2000000000, 0)], x ≤ r :=
  calculate_peak_difference_is_signed_max _ _ (by simp) (by simp)
    (by
      norm_num [matchedDifferences, sortedTimestamps, pySorted, insort,
        matchGo, advance, absDiff, dictGet, TOLERANCE_NS]
      simp)

/-! ## Alert logic and polling loop (`main`, lines 180-228) -/

/-- Line 187. -/
def THRESHOLD : ℚ := 274

/-- The per-cycle alert logic of lines 210-220, parameterised by the
threshold: given the current `alert_sent` flag and the cycle's peak
difference (`none` when `calculate_peak_difference` returned `None`),
returns the new flag and whether an email was dispatched this cycle.
When `|peak| > threshold` the flag is set and an email goes out only if
the flag was clear; in the `else` branch the code only prints — the flag
is never cleared. -/
def alertStep (threshold : ℚ) (alert_sent : Bool) (peak : Option ℚ) : Bool × Bool :=
  match peak with
  | none => (alert_sent, false)
  | some p => if threshold < |p| then (true, !alert_sent) else (alert_sent, false)

/-- The alert logic folded over a run of consecutive cycle peaks:
final flag and the per-cycle notification record. -/
def runAlerts (threshold : ℚ) : Bool → List (Option ℚ) → Bool × List Bool
  | s, [] => (s, [])
  | s, p :: rest =>
    let step := alertStep threshold s p
    let next := runAlerts threshold step.1 rest
    (next.1, step.2 :: next.2)

/-- C2: the alert flag is not resettable.  On the cycle peaks
`[5, 12, 3, 9]` against threshold 10 exactly one notification fires (on
the 12) — that half of the claim holds — but the flag survives the return
to 3 ≤ 10 (it is still set after the first three cycles), so extending
the run with a 15 fires no second notification, contradicting the claim
that the flag clears whenever the peak returns to at or below threshold
and that a notification fires again on the next excursion. -/
theorem alert_flag_never_resets :
    runAlerts 10 false [some 5, some 12, some 3, some 9] =
      (true, [false, true, false, false]) ∧
    (runAlerts 10 false [some 5, some 12, some 3]).1 = true ∧
    runAlerts 10 false [some 5, some 12, some 3, some 9, some 15] =
      (true, [false, true, false, false, false]) := by
  refine ⟨by decide, by decide, by decide⟩

/-- One polling cycle's data path (lines 191-220), at the level of the
fetched response bodies for the two divergence channels: both buffers are
decoded by the loop of `download_data_range`; a decoding failure is an
uncaught `struct.error` that propagates out of the cycle (the `while True`
body has no exception handler).  On success the alert logic runs on the
peak difference.  `interp` is the IEEE-754 bit-pattern-to-value
interpretation, kept abstract. -/
def cycleStep (interp : Nat → ℚ) (alert_sent : Bool) (ch1buf ch3buf : List Nat) :
    Except StreamError Bool :=
  match decode_sample_stream ch1buf with
  | .error e => .error e
  | .ok d1 =>
    match decode_sample_stream ch3buf with
    | .error e => .error e
    | .ok d3 =>
      .ok (alertStep THRESHOLD alert_sent
        (calculate_peak_difference (d1.map fun p => (p.1, interp p.2))
          (d3.map fun p => (p.1, interp p.2)))).1

/-- The polling loop over a run of cycles: each cycle's uncaught error
ends the run (only `KeyboardInterrupt` is handled, outside the loop);
otherwise the state is carried to the next cycle. -/
def runLoop (interp : Nat → ℚ) : Bool → List (List Nat × List Nat) → Except StreamError Bool
  | s, [] => .ok s
  | s, bufs :: rest =>
    match cycleStep interp s bufs.1 bufs.2 with
    | .ok s' => runLoop interp s' rest
    | .error e => .error e

/-- C4: per-cycle errors are not isolated.  A decode failure on a data
fetch (a 5-byte body, not a multiple of 12) is an uncaught `struct.error`
that terminates the whole run instead of being treated as "no data": the
run over two scheduled cycles dies in the first one and the second cycle
is never processed, while the same run without the bad body completes.
(`interp` is universally quantified: the outcome does not depend on how
float bit patterns are valued.) -/
theorem decode_failure_kills_loop (interp : Nat → ℚ) :
    runLoop interp false [([], [0, 0, 0, 0, 0]), ([], [])] = .error .truncatedStream ∧
    runLoop interp false [([], []), ([], [])] = .ok false := by
  exact ⟨rfl, rfl⟩

/-- The constant `int(2 * 60 * 1e9)` of lines 194-195 (exact: `1e9` and the product
are exactly representable doubles): the fetch window is 2 minutes. -/
def window_ns : ℤ := 2 * 60 * 1000000000

/-- The fetch window `[now - window, now]` computed at the start of each
cycle (lines 194-195; `get_peak_values` and `calculate_peak_difference`
recompute the same 2-minute window). -/
def fetch_window (now_ns : ℤ) : ℤ × ℤ := (now_ns - window_ns, now_ns)

/-- The suspension `time.sleep(120)` at line 225. -/
def SLEEP_SECONDS : ℕ := 120

/-- C5 counterexample: the fetch window is not `[now - 10 minutes, now]`:
at `now = 10^12` the window start differs from `now - 600 * 10^9`. -/
theorem fetch_window_not_ten_minutes :
    (fetch_window 1000000000000).1 ≠ 1000000000000 - 600 * 1000000000 := by
  decide

/-- C5 (amended): on every cycle the fetch window is
`[now - 2 minutes, now]` (wall clock at the start of the cycle), and the
loop then suspends for a fixed 120-second interval. -/
theorem fetch_window_two_minutes (now_ns : ℤ) :
    fetch_window now_ns = (now_ns - 120 * 1000000000, now_ns) ∧ SLEEP_SECONDS = 120 := by
  refine ⟨by norm_num [fetch_window, window_ns], rfl⟩

/-! ## Cross-cycle run state (C9)

The only state `main` carries from one cycle to the next is the
`alert_sent` flag of line 188; there is no gap counter and no record of
the previous cycle's timestamps. -/

/-- The cross-cycle state update of one loop iteration at the
decoded-data level: the run state is exactly the `alert_sent` flag, and
the iteration feeds the two channels' data through
`calculate_peak_difference` and the alert logic of lines 210-220. -/
def processCycle (s : Bool) (d1 d3 : List (Nat × ℚ)) : Bool :=
  (alertStep THRESHOLD s (calculate_peak_difference d1 d3)).1

/-- Modelled from the spec: the aligned-timestamp set of a cycle — the
exact intersection of the two channels' timestamp sets.  The program
computes no such set and keeps no gap counter; this definition exists
only so the gap-detection claim can be stated against the embedded run
state. -/
def specAlignedTimestamps (d1 d3 : List (Nat × ℚ)) : List Nat :=
  ((d1.map Prod.fst).dedup).filter (fun t => (d3.map Prod.fst).contains t)

/-- C9 counterexample: no component of the run state behaves as the
claimed `gap_count`.  Read the claim as: some counter `g` of the run
state is incremented by exactly 1 across two consecutive nonempty-aligned
cycles with disjoint timestamp sets and left unchanged when they overlap.
No such `g` exists, because the state update ignores timestamps entirely:
two below-threshold cycles on disjoint sets leave the state at `false`,
forcing `g false = g false + 1`. -/
theorem no_gap_counter_exists :
    ¬ ∃ g : Bool → ℕ,
        ∀ (s : Bool) (a1 a3 b1 b3 : List (Nat × ℚ)),
          specAlignedTimestamps a1 a3 ≠ [] →
          specAlignedTimestamps b1 b3 ≠ [] →
          ((∀ t ∈ specAlignedTimestamps a1 a3, t ∉ specAlignedTimestamps b1 b3) →
            g (processCycle (processCycle s a1 a3) b1 b3) = g (processCycle s a1 a3) + 1) ∧
          (¬ (∀ t ∈ specAlignedTimestamps a1 a3, t ∉ specAlignedTimestamps b1 b3) →
            g (processCycle (processCycle s a1 a3) b1 b3) = g (processCycle s a1 a3)) := by
  rintro ⟨g, hg⟩
  have e1 : processCycle false [((0 : ℕ), (0 : ℚ))] [((0 : ℕ), (0 : ℚ))] = false := by
    norm_num [processCycle, alertStep, THRESHOLD, calculate_peak_difference, matchedDifferences,
      sortedTimestamps, pySorted, insort, matchGo, advance, absDiff, dictGet, pyMax, TOLERANCE_NS]
  have e2 : processCycle false [((5000000000 : ℕ), (0 : ℚ))] [((5000000000 : ℕ), (0 : ℚ))] =
      false := by
    norm_num [processCycle, alertStep, THRESHOLD, calculate_peak_difference, matchedDifferences,
      sortedTimestamps, pySorted, insort, matchGo, advance, absDiff, dictGet, pyMax, TOLERANCE_NS]
  have h := (hg false [(0, 0)] [(0, 0)] [(5000000000, 0)] [(5000000000, 0)]
    (by decide) (by decide)).1 (by decide)
  rw [e1, e2] at h
  omega

/-- C9 (amended): the run state keeps no gap counter — the state after
two consecutive cycles is a function of the initial alert flag and the
two cycles' peak differences only, so whether the consecutive
aligned-timestamp sets are disjoint or overlapping has no effect on any
run-state component. -/
theorem processCycle_depends_only_on_peaks (s : Bool)
    (a1 a3 b1 b3 a1' a3' b1' b3' : List (Nat × ℚ))
    (h1 : calculate_peak_difference a1 a3 = calculate_peak_difference a1' a3')
    (h2 : calculate_peak_difference b1 b3 = calculate_peak_difference b1' b3') :
    processCycle (processCycle s a1 a3) b1 b3 = processCycle (processCycle s a1' a3') b1' b3' := by
  unfold processCycle
  rw [h1, h2]

/-- Witness for the amended C9: a disjoint-sets second cycle and an
overlapping-sets second cycle with the same peaks end in the same state. -/
theorem processCycle_depends_only_on_peaks_witness :
    processCycle (processCycle false [((0 : ℕ), (0 : ℚ))] [((0 : ℕ), (0 : ℚ))])
        [((5000000000 : ℕ), (0 : ℚ))] [((5000000000 : ℕ), (0 : ℚ))] =
      processCycle (processCycle false [((0 : ℕ), (0 : ℚ))] [((0 : ℕ), (0 : ℚ))])
        [((0 : ℕ), (0 : ℚ))] [((0 : ℕ), (0 : ℚ))] :=
  processCycle_depends_only_on_peaks false _ _ _ _ _ _ _ _ rfl
    (by
      have ea : calculate_peak_difference [((5000000000 : ℕ), (0 : ℚ))]
          [((5000000000 : ℕ), (0 : ℚ))] = some 0 := by
        norm_num [calculate_peak_difference, matchedDifferences, sortedTimestamps, pySorted,
          insort, matchGo, advance, absDiff, dictGet, pyMax, TOLERANCE_NS]
      have eb : calculate_peak_difference [((0 : ℕ), (0 : ℚ))] [((0 : ℕ), (0 : ℚ))] =
          some 0 := by
        norm_num [calculate_peak_difference, matchedDifferences, sortedTimestamps, pySorted,
          insort, matchGo, advance, absDiff, dictGet, pyMax, TOLERANCE_NS]
      rw [ea, eb])

end StrainMonitor
